import Mathlib

/-!
# CAluminumDevice.h: configuration, messages, status export

A shallow embedding of `src/CAluminumDevice.h` (namespace `chai3d`).

Conventions of the embedding:

* `D` stands for the C++ type `double` and `F` for `float`.  The header only copies,
  compares and prints such values, so they are kept abstract; results hold for every
  choice of `D` (concrete instances use `Int`).
* `fmt : D → String` stands for `std::ostream::operator<<(double)`, which belongs to the
  C++ standard library and not to this repository.
* `std::string` is embedded as `String`, one `Char` per C++ `char`; `std::endl` is the
  newline character.
* `const double* k` is embedded as an `Array D` together with the bound that makes the
  reads `k[0] .. k[32]` defined.
-/

namespace chai3d

/-! ## Data model -/

/-- The CHAI3D vector `cVector3d`, read through `x()`, `y()`, `z()`. -/
structure cVector3d (D : Type) where
  x : D
  y : D
  z : D
deriving DecidableEq, Repr

/-- `struct aluminumhaptics_message`: twelve `float` fields (used both up and down). -/
structure aluminumhaptics_message (F : Type) where
  position_x : F
  position_y : F
  position_z : F
  command_force_x : F
  command_force_y : F
  command_force_z : F
  actual_current_0 : F
  actual_current_1 : F
  actual_current_2 : F
  temperature_0 : F
  temperature_1 : F
  temperature_2 : F
deriving DecidableEq, Repr

/-- `struct hid_to_pc_message`: four fields declared `double`
(the `short` declarations are commented out in the source). -/
structure hid_to_pc_message (D : Type) where
  encoder_a : D
  encoder_b : D
  encoder_c : D
  debug : D
deriving DecidableEq, Repr

/-- `struct pc_to_hid_message`: four fields declared `double`
(the `short` declarations are commented out in the source). -/
structure pc_to_hid_message (D : Type) where
  current_motor_a_mA : D
  current_motor_b_mA : D
  current_motor_c_mA : D
  debug : D
deriving DecidableEq, Repr

/-- `struct cAluminumDevice::configuration`, members in the order of declaration. -/
structure configuration (D : Type) where
  offset_angle : D
  angle_1 : D
  angle_2 : D
  angle_3 : D
  variant : D
  diameter_capstan_a : D
  diameter_capstan_b : D
  diameter_capstan_c : D
  length_body_a : D
  length_body_b : D
  length_body_c : D
  diameter_body_a : D
  diameter_body_b : D
  diameter_body_c : D
  workspace_origin_x : D
  workspace_origin_y : D
  workspace_origin_z : D
  workspace_radius : D
  torque_constant_motor_a : D
  torque_constant_motor_b : D
  torque_constant_motor_c : D
  current_for_10_v_signal : D
  cpr_encoder_a : D
  cpr_encoder_b : D
  cpr_encoder_c : D
  max_linear_force : D
  max_linear_stiffness : D
  max_linear_damping : D
  mass_body_b : D
  mass_body_c : D
  length_cm_body_b : D
  length_cm_body_c : D
  g_constant : D
deriving DecidableEq, Repr

/-- The constructor `configuration(const double* k)`: a member initialiser list and an
empty body.  Every initialiser reads one element of `k`; `h` makes the reads defined. -/
def configuration.ofArray {D : Type} (k : Array D) (h : 33 ≤ k.size) : configuration D :=
  { variant := k[0],
    diameter_capstan_a := k[1], diameter_capstan_b := k[2], diameter_capstan_c := k[3],
    length_body_a := k[4], length_body_b := k[5], length_body_c := k[6],
    diameter_body_a := k[7], diameter_body_b := k[8], diameter_body_c := k[9],
    workspace_origin_x := k[10], workspace_origin_y := k[11], workspace_origin_z := k[12],
    workspace_radius := k[13], torque_constant_motor_a := k[14],
    torque_constant_motor_b := k[15], torque_constant_motor_c := k[16],
    current_for_10_v_signal := k[17], cpr_encoder_a := k[18], cpr_encoder_b := k[19],
    cpr_encoder_c := k[20], max_linear_force := k[21], max_linear_stiffness := k[22],
    max_linear_damping := k[23], mass_body_b := k[24], mass_body_c := k[25],
    length_cm_body_b := k[26], length_cm_body_c := k[27], g_constant := k[28],
    angle_1 := k[29], angle_2 := k[30], angle_3 := k[31], offset_angle := k[32] }

/-- The fields of a configuration listed by the index of `k` the constructor reads for
them (position `i` of the list holds the field initialised from `k[i]`). -/
def configuration.byIndex {D : Type} (c : configuration D) : List D :=
  [c.variant, c.diameter_capstan_a, c.diameter_capstan_b, c.diameter_capstan_c,
   c.length_body_a, c.length_body_b, c.length_body_c,
   c.diameter_body_a, c.diameter_body_b, c.diameter_body_c,
   c.workspace_origin_x, c.workspace_origin_y, c.workspace_origin_z,
   c.workspace_radius, c.torque_constant_motor_a,
   c.torque_constant_motor_b, c.torque_constant_motor_c,
   c.current_for_10_v_signal, c.cpr_encoder_a, c.cpr_encoder_b,
   c.cpr_encoder_c, c.max_linear_force, c.max_linear_stiffness,
   c.max_linear_damping, c.mass_body_b, c.mass_body_c,
   c.length_cm_body_b, c.length_cm_body_c, c.g_constant,
   c.angle_1, c.angle_2, c.angle_3, c.offset_angle]

/-- How running a constructor can end.  A C++ constructor reports failure only by
throwing; otherwise the object exists. -/
inductive Construction (α : Type) where
  | value : α → Construction α
  | error : String → Construction α
deriving DecidableEq, Repr

/-- Running `configuration(const double* k)`.  The initialisers copy doubles and the body
is `{}`: there is no `throw`, no check and no other exit, so the run always ends with the
object. -/
def configuration.construct {D : Type} (k : Array D) (h : 33 ≤ k.size) :
    Construction (configuration D) :=
  Construction.value (configuration.ofArray k h)

/-- A parameter array is physically invalid when a capstan diameter (`k[1]`, `k[2]`,
`k[3]`) is non-positive or an encoder counts-per-revolution value (`k[18]`, `k[19]`,
`k[20]`) is zero. -/
def physicallyInvalid {D : Type} [Zero D] [LE D] (k : Array D) (h : 33 ≤ k.size) : Prop :=
  k[1] ≤ 0 ∨ k[2] ≤ 0 ∨ k[3] ≤ 0 ∨ k[18] = 0 ∨ k[19] = 0 ∨ k[20] = 0

/-- A sample parameter array: index `i` holds the value `i + 1`. -/
def sampleParams : Array Int :=
  #[1, 2, 3, 4, 5, 6, 7, 8, 9, 10, 11, 12, 13, 14, 15, 16, 17, 18, 19, 20, 21, 22, 23,
    24, 25, 26, 27, 28, 29, 30, 31, 32, 33]

/-- A parameter array whose first capstan diameter and first encoder resolution are
zero. -/
def zeroCapstanParams : Array Int :=
  #[0, 0, 3, 4, 5, 6, 7, 8, 9, 10, 11, 12, 13, 14, 15, 16, 17, 18, 0, 20, 21, 22, 23,
    24, 25, 26, 27, 28, 29, 30, 31, 32, 33]

/-! ## Status export (`struct aluminumhaptics_status`) -/

/-- `struct cAluminumDevice::aluminumhaptics_status`: six data members. -/
structure aluminumhaptics_status (D : Type) where
  latest_hid_to_pc : hid_to_pc_message D
  latest_pc_to_hid : pc_to_hid_message D
  config : configuration D
  latest_position : cVector3d D
  latest_force : cVector3d D
  latest_motor_torques : cVector3d D
deriving DecidableEq, Repr

/-- `std::endl` as it appears in the produced text. -/
def endl : String := "\n"

/-- `aluminumhaptics_status::toJSON(const cVector3d& v)`:
`ss << "[" << v.x() << ", " << v.y() << ", " << v.z() << "]" << std::endl`. -/
def toJSON_vec {D : Type} (fmt : D → String) (v : cVector3d D) : String :=
  "[" ++ fmt v.x ++ ", " ++ fmt v.y ++ ", " ++ fmt v.z ++ "]" ++ endl

/-- The loop `while(s.str().length()<32) s<< " ";` of `j`, run on the text written so
far. -/
def padLoop (s : String) : String :=
  if s.length < 32 then padLoop (s ++ " ") else s
termination_by 32 - s.length
decreasing_by
  simp only [String.length_append]
  have h1 : (" " : String).length = 1 := rfl
  omega

/-- The same loop with a counter: the number of times the body `s<< " "` runs, and the
text when the loop is left. -/
def padLoopCount (s : String) : Nat × String :=
  if s.length < 32 then ((padLoopCount (s ++ " ")).1 + 1, (padLoopCount (s ++ " ")).2)
  else (0, s)
termination_by 32 - s.length
decreasing_by
  all_goals
    simp only [String.length_append]
    have h1 : (" " : String).length = 1 := rfl
    omega

/-- `aluminumhaptics_status::j(key, value)`:
`s << "    \"" << key << "\":"`, the padding loop, then `s << value << "," << std::endl`. -/
def j {D : Type} (fmt : D → String) (key : String) (value : D) : String :=
  padLoop ("    \"" ++ key ++ "\":") ++ fmt value ++ "," ++ endl

/-- `aluminumhaptics_status::config_toJSON(c)`. -/
def config_toJSON {D : Type} (fmt : D → String) (c : configuration D) : String :=
  "\x7b" ++ endl
    ++ j fmt "diameter_capstan_a" c.diameter_capstan_a
    ++ j fmt "diameter_capstan_b" c.diameter_capstan_b
    ++ j fmt "diameter_capstan_c" c.diameter_capstan_c
    ++ j fmt "length_body_a" c.length_body_a
    ++ j fmt "length_body_b" c.length_body_b
    ++ j fmt "length_body_c" c.length_body_c
    ++ j fmt "diameter_body_a" c.diameter_body_a
    ++ j fmt "diameter_body_b" c.diameter_body_b
    ++ j fmt "diameter_body_c" c.diameter_body_c
    ++ j fmt "workspace_origin_x" c.workspace_origin_x
    ++ j fmt "workspace_origin_y" c.workspace_origin_y
    ++ j fmt "workspace_origin_z" c.workspace_origin_z
    ++ j fmt "workspace_radius" c.workspace_radius
    ++ j fmt "torque_constant_motor_a" c.torque_constant_motor_a
    ++ j fmt "torque_constant_motor_b" c.torque_constant_motor_b
    ++ j fmt "torque_constant_motor_c" c.torque_constant_motor_c
    ++ j fmt "current_for_10_v_signal" c.current_for_10_v_signal
    ++ j fmt "cpr_encoder_a" c.cpr_encoder_a
    ++ j fmt "cpr_encoder_b" c.cpr_encoder_b
    ++ j fmt "cpr_encoder_c" c.cpr_encoder_c
    ++ j fmt "max_linear_force" c.max_linear_force
    ++ j fmt "max_linear_stiffness" c.max_linear_stiffness
    ++ j fmt "max_linear_damping" c.max_linear_damping
    ++ j fmt "mass_body_b" c.mass_body_b
    ++ j fmt "mass_body_c" c.mass_body_c
    ++ j fmt "length_cm_body_b" c.length_cm_body_b
    ++ j fmt "length_cm_body_c" c.length_cm_body_c
    ++ j fmt "g_constant" c.g_constant
    ++ "\x7d" ++ endl

/-- `aluminumhaptics_status::toJSON()`: the three `ss << ...` statements that write text
(the last one, `ss << ""`, writes nothing). -/
def toJSON {D : Type} (fmt : D → String) (s : aluminumhaptics_status D) : String :=
  ("\x7b" ++ endl ++
    "  'latest_position':  " ++ toJSON_vec fmt s.latest_position ++ "," ++ endl ++
    "  'latest_force':  " ++ toJSON_vec fmt s.latest_force ++ "," ++ endl ++
    "  'latest_motor_torques':  " ++ toJSON_vec fmt s.latest_motor_torques ++ "," ++ endl ++
    "  'latest_hid_to_pc_encoder_a':  " ++ fmt s.latest_hid_to_pc.encoder_a ++ "," ++ endl ++
    "  'latest_hid_to_pc_encoder_b':  " ++ fmt s.latest_hid_to_pc.encoder_b ++ "," ++ endl ++
    "  'latest_hid_to_pc_encoder_c':  " ++ fmt s.latest_hid_to_pc.encoder_c ++ "," ++ endl ++
    "  'latest_pc_to_hid_motor_a_mA':  " ++ fmt s.latest_pc_to_hid.current_motor_a_mA
      ++ "," ++ endl ++
    "  'latest_pc_to_hid_motor_b_mA':  " ++ fmt s.latest_pc_to_hid.current_motor_b_mA
      ++ "," ++ endl ++
    "  'latest_pc_to_hid_motor_c_mA':  " ++ fmt s.latest_pc_to_hid.current_motor_c_mA
      ++ "," ++ endl)
  ++ ("  'configuration: " ++ endl ++ config_toJSON fmt s.config)
  ++ ("\x7d" ++ endl)
  ++ ""

/-- The members of `configuration` by name: every declared member with its value, in
the order of declaration. -/
def configuration.namedFields {D : Type} (c : configuration D) : List (String × D) :=
  [("offset_angle", c.offset_angle), ("angle_1", c.angle_1), ("angle_2", c.angle_2),
   ("angle_3", c.angle_3), ("variant", c.variant),
   ("diameter_capstan_a", c.diameter_capstan_a),
   ("diameter_capstan_b", c.diameter_capstan_b),
   ("diameter_capstan_c", c.diameter_capstan_c),
   ("length_body_a", c.length_body_a), ("length_body_b", c.length_body_b),
   ("length_body_c", c.length_body_c),
   ("diameter_body_a", c.diameter_body_a), ("diameter_body_b", c.diameter_body_b),
   ("diameter_body_c", c.diameter_body_c),
   ("workspace_origin_x", c.workspace_origin_x),
   ("workspace_origin_y", c.workspace_origin_y),
   ("workspace_origin_z", c.workspace_origin_z),
   ("workspace_radius", c.workspace_radius),
   ("torque_constant_motor_a", c.torque_constant_motor_a),
   ("torque_constant_motor_b", c.torque_constant_motor_b),
   ("torque_constant_motor_c", c.torque_constant_motor_c),
   ("current_for_10_v_signal", c.current_for_10_v_signal),
   ("cpr_encoder_a", c.cpr_encoder_a), ("cpr_encoder_b", c.cpr_encoder_b),
   ("cpr_encoder_c", c.cpr_encoder_c),
   ("max_linear_force", c.max_linear_force),
   ("max_linear_stiffness", c.max_linear_stiffness),
   ("max_linear_damping", c.max_linear_damping),
   ("mass_body_b", c.mass_body_b), ("mass_body_c", c.mass_body_c),
   ("length_cm_body_b", c.length_cm_body_b), ("length_cm_body_c", c.length_cm_body_c),
   ("g_constant", c.g_constant)]

/-- A text `t` contains the text `piece` as one contiguous block. -/
def Contains (t piece : String) : Prop :=
  ∃ pre post : String, t = pre ++ piece ++ post

/-- The names of the configuration members for which `config_toJSON` has no `j(...)`
call. -/
def notExported : List String :=
  ["offset_angle", "angle_1", "angle_2", "angle_3", "variant"]

/-! ## The device object (`class cAluminumDevice`) -/

/-- The data members of `cAluminumDevice` declared in the header.  The members that are
operating-system resources (`start`, `start_of_app`, `t`, `wstr`, `handle`, `devs`,
`cur_dev`) carry no value the header reads and are left out. -/
structure cAluminumDevice (F D : Type) where
  lost_messages : Int
  deviceNumber : Int
  outputFileName : String
  passNumberofLines : Int
  m_config : configuration D
  torqueSignals : cVector3d D
  incoming_msg : aluminumhaptics_message F
  outgoing_msg : aluminumhaptics_message F
  hid_to_pc : hid_to_pc_message D
  pc_to_hid : pc_to_hid_message D
  latest_position : cVector3d D
  latest_force : cVector3d D
  latest_motor_torques : cVector3d D
  forces : List (cVector3d D)
  positions : List (cVector3d D)
  timestamp : List D
  global_dir_sum : Int
  global_pwm_percent : List D
  res : Int
  buf : List Nat
  i : Int
  fd : Int
deriving DecidableEq, Repr

/-- `cVector3d getTorqueSignals() { return torqueSignals; }`, as a step on the device
state: the value returned and the state afterwards. -/
def getTorqueSignals {F D : Type} (dev : cAluminumDevice F D) :
    cVector3d D × cAluminumDevice F D :=
  (dev.torqueSignals, dev)

/-- `cVector3d getEncoders()`: builds a `cVector3d` from the three temperature fields of
`incoming_msg`; `widen` is the implicit conversion from `float` to `double` applied to
each constructor argument.  Returns the value and the state afterwards. -/
def getEncoders {F D : Type} (widen : F → D) (dev : cAluminumDevice F D) :
    cVector3d D × cAluminumDevice F D :=
  (cVector3d.mk (widen dev.incoming_msg.temperature_0)
                (widen dev.incoming_msg.temperature_1)
                (widen dev.incoming_msg.temperature_2), dev)

/-- The local variable `s` of `getStatus()` after its six assignments. -/
def getStatus_local {F D : Type} (dev : cAluminumDevice F D) : aluminumhaptics_status D :=
  { latest_hid_to_pc := dev.hid_to_pc,
    latest_pc_to_hid := dev.pc_to_hid,
    config := dev.m_config,
    latest_position := dev.latest_position,
    latest_force := dev.latest_force,
    latest_motor_torques := dev.latest_motor_torques }

/-- `aluminumhaptics_status getStatus()`: declares `s`, assigns its six members, and the
body ends there.  There is no `return` statement, so control flows off the end of a
value-returning function and no value is handed to the caller (undefined behaviour in
C++); `none` stands for that missing value, `some v` would be `return v;`. -/
def getStatus {F D : Type} (dev : cAluminumDevice F D) : Option (aluminumhaptics_status D) :=
  let _s : aluminumhaptics_status D := getStatus_local dev
  none

/-! ## Size of the HID report records -/

/-- The C++ types of the members of the two HID records, as declared and as in the
commented-out declarations. -/
inductive CType where
  | short_t
  | double_t
deriving DecidableEq, Repr

/-- Storage size in bytes: `short` is 2 bytes and `double` is the 8-byte IEEE-754
binary64 on the platforms the HID library targets. -/
def CType.bytes : CType → Nat
  | CType.short_t => 2
  | CType.double_t => 8

/-- Size of a record whose members all have the same type (no padding between or after
members of one type): the sum of the member sizes. -/
def recordBytes (members : List CType) : Nat :=
  (members.map CType.bytes).sum

/-- Member types of `hid_to_pc_message` as declared: `double encoder_a, encoder_b,
encoder_c, debug`. -/
def hid_to_pc_message.memberTypes : List CType :=
  [CType.double_t, CType.double_t, CType.double_t, CType.double_t]

/-- Member types of `pc_to_hid_message` as declared: `double current_motor_a_mA,
current_motor_b_mA, current_motor_c_mA, debug`. -/
def pc_to_hid_message.memberTypes : List CType :=
  [CType.double_t, CType.double_t, CType.double_t, CType.double_t]

/-- Member types in the commented-out declarations of both records (`// short ...`),
the layout the comment `4*2 = 8 bytes` describes. -/
def commentedOutMemberTypes : List CType :=
  [CType.short_t, CType.short_t, CType.short_t, CType.short_t]

/-- Length of `unsigned char buf[9]` ("1 extra byte for the report ID"). -/
def bufLength : Nat := 9

/-! ## Parts of the device whose code is not in the header -/

/-- Modelled from the spec: the Dynamics Compensator of section 4.3, whose code is in
`CAluminumDevice.cpp` and not in the header (the header only declares `g_constant`,
"usually 9.81 or 0 to disable gravity compensation").  It computes one torque per joint
from the joint angles and the configuration; a gravitational constant of exactly zero
short-circuits the computation and returns zero for every joint.  `gravityTorque` is the
trigonometric computation itself, which the spec does not give. -/
def gravityCompensation {D : Type} [Zero D] [DecidableEq D]
    (gravityTorque : configuration D → cVector3d D → cVector3d D)
    (c : configuration D) (jointAngles : cVector3d D) : cVector3d D :=
  if c.g_constant = 0 then cVector3d.mk 0 0 0 else gravityTorque c jointAngles

/-- The `j(...)` calls of `config_toJSON`, in order: key and value of each. -/
def exportedFields {D : Type} (c : configuration D) : List (String × D) :=
  [("diameter_capstan_a", c.diameter_capstan_a),
   ("diameter_capstan_b", c.diameter_capstan_b),
   ("diameter_capstan_c", c.diameter_capstan_c),
   ("length_body_a", c.length_body_a), ("length_body_b", c.length_body_b),
   ("length_body_c", c.length_body_c),
   ("diameter_body_a", c.diameter_body_a), ("diameter_body_b", c.diameter_body_b),
   ("diameter_body_c", c.diameter_body_c),
   ("workspace_origin_x", c.workspace_origin_x),
   ("workspace_origin_y", c.workspace_origin_y),
   ("workspace_origin_z", c.workspace_origin_z),
   ("workspace_radius", c.workspace_radius),
   ("torque_constant_motor_a", c.torque_constant_motor_a),
   ("torque_constant_motor_b", c.torque_constant_motor_b),
   ("torque_constant_motor_c", c.torque_constant_motor_c),
   ("current_for_10_v_signal", c.current_for_10_v_signal),
   ("cpr_encoder_a", c.cpr_encoder_a), ("cpr_encoder_b", c.cpr_encoder_b),
   ("cpr_encoder_c", c.cpr_encoder_c),
   ("max_linear_force", c.max_linear_force),
   ("max_linear_stiffness", c.max_linear_stiffness),
   ("max_linear_damping", c.max_linear_damping),
   ("mass_body_b", c.mass_body_b), ("mass_body_c", c.mass_body_c),
   ("length_cm_body_b", c.length_cm_body_b), ("length_cm_body_c", c.length_cm_body_c),
   ("g_constant", c.g_constant)]

/-- Concatenation of a list of texts, first to last. -/
def catLines : List String → String
  | [] => ""
  | x :: xs => x ++ catLines xs

/-- One top-level entry of `toJSON()`: two spaces, the key in single quotes, a colon and
two spaces, the value, a comma and a newline. -/
def topLevelEntry (key value : String) : String :=
  "  '" ++ key ++ "':  " ++ value ++ "," ++ endl

/-- Scan of a text for braces from the state `(depth, deepest)`: an opening brace goes one
level deeper, a closing brace one level up, and the scan fails (`none`) at a closing
brace met at depth 0. -/
def braceScan : List Char → Nat × Nat → Option (Nat × Nat)
  | [], st => some st
  | ch :: cs, st =>
    if ch = '\x7b' then braceScan cs (st.1 + 1, max st.2 (st.1 + 1))
    else if ch = '\x7d' then (if st.1 = 0 then none else braceScan cs (st.1 - 1, st.2))
    else braceScan cs st

/-- A text without braces. -/
@[reducible] def BraceFree (t : String) : Prop :=
  ∀ ch ∈ t.data, ch ≠ '\x7b' ∧ ch ≠ '\x7d'

/-! ## Sample values -/

/-- A parameter array with gravity compensation disabled (`k[28] = 0`) and a force
ceiling of 5 (`k[21] = 5`). -/
def noGravityParams : Array Int :=
  #[1, 2, 3, 4, 5, 6, 7, 8, 9, 10, 11, 12, 13, 14, 15, 16, 17, 18, 19, 20, 21, 5, 23,
    24, 25, 26, 27, 28, 0, 30, 31, 32, 33]

/-- A sample incoming message with distinct field values. -/
def sampleMessage : aluminumhaptics_message Int :=
  { position_x := 1, position_y := 2, position_z := 3,
    command_force_x := 4, command_force_y := 5, command_force_z := 6,
    actual_current_0 := 7, actual_current_1 := 8, actual_current_2 := 9,
    temperature_0 := 10, temperature_1 := 11, temperature_2 := 12 }

/-- A sample device state. -/
def sampleDevice : cAluminumDevice Int Int :=
  { lost_messages := 0, deviceNumber := 0, outputFileName := "log.txt",
    passNumberofLines := 0,
    m_config := configuration.ofArray sampleParams (by decide),
    torqueSignals := cVector3d.mk 1 2 3,
    incoming_msg := sampleMessage,
    outgoing_msg := sampleMessage,
    hid_to_pc := hid_to_pc_message.mk 100 200 300 0,
    pc_to_hid := pc_to_hid_message.mk 10 20 30 0,
    latest_position := cVector3d.mk 4 5 6,
    latest_force := cVector3d.mk 7 8 9,
    latest_motor_torques := cVector3d.mk 10 11 12,
    forces := [], positions := [], timestamp := [],
    global_dir_sum := 0, global_pwm_percent := [0, 0, 0],
    res := 0, buf := [0, 0, 0, 0, 0, 0, 0, 0, 0], i := 0, fd := 0 }

/-- Decimal output of an integer-valued number, as `operator<<` prints such a `double`
of small magnitude. -/
def fmtInt (z : Int) : String := toString z

/-- A sample status snapshot. -/
def sampleStatus : aluminumhaptics_status Int :=
  { latest_hid_to_pc := hid_to_pc_message.mk 100 200 300 0,
    latest_pc_to_hid := pc_to_hid_message.mk 10 20 30 0,
    config := configuration.ofArray sampleParams (by decide),
    latest_position := cVector3d.mk 4 5 6,
    latest_force := cVector3d.mk 7 8 9,
    latest_motor_torques := cVector3d.mk 10 11 12 }

/-! # Theorems -/

/-! ## The configuration constructor -/

/-- C1: for every array `k` of at least 33 doubles, `configuration(k)` sets each of the
33 members from its own index of `k` in the fixed mapping `variant = k[0]`,
`diameter_capstan_a/b/c = k[1..3]`, ..., `g_constant = k[28]`, `angle_1 = k[29]`,
`angle_2 = k[30]`, `angle_3 = k[31]`, `offset_angle = k[32]`; the members listed by index
are exactly the first 33 elements of `k`, so no member is left unset and no index in
`0..32` is used twice, whatever the order of declaration of the members. -/
theorem configuration_ofArray_mapping {D : Type} (k : Array D) (h : 33 ≤ k.size) :
    ((configuration.ofArray k h).variant = k[0]
      ∧ (configuration.ofArray k h).diameter_capstan_a = k[1]
      ∧ (configuration.ofArray k h).diameter_capstan_b = k[2]
      ∧ (configuration.ofArray k h).diameter_capstan_c = k[3]
      ∧ (configuration.ofArray k h).length_body_a = k[4]
      ∧ (configuration.ofArray k h).length_body_b = k[5]
      ∧ (configuration.ofArray k h).length_body_c = k[6]
      ∧ (configuration.ofArray k h).diameter_body_a = k[7]
      ∧ (configuration.ofArray k h).diameter_body_b = k[8]
      ∧ (configuration.ofArray k h).diameter_body_c = k[9]
      ∧ (configuration.ofArray k h).workspace_origin_x = k[10]
      ∧ (configuration.ofArray k h).workspace_origin_y = k[11]
      ∧ (configuration.ofArray k h).workspace_origin_z = k[12]
      ∧ (configuration.ofArray k h).workspace_radius = k[13]
      ∧ (configuration.ofArray k h).torque_constant_motor_a = k[14]
      ∧ (configuration.ofArray k h).torque_constant_motor_b = k[15]
      ∧ (configuration.ofArray k h).torque_constant_motor_c = k[16]
      ∧ (configuration.ofArray k h).current_for_10_v_signal = k[17]
      ∧ (configuration.ofArray k h).cpr_encoder_a = k[18]
      ∧ (configuration.ofArray k h).cpr_encoder_b = k[19]
      ∧ (configuration.ofArray k h).cpr_encoder_c = k[20]
      ∧ (configuration.ofArray k h).max_linear_force = k[21]
      ∧ (configuration.ofArray k h).max_linear_stiffness = k[22]
      ∧ (configuration.ofArray k h).max_linear_damping = k[23]
      ∧ (configuration.ofArray k h).mass_body_b = k[24]
      ∧ (configuration.ofArray k h).mass_body_c = k[25]
      ∧ (configuration.ofArray k h).length_cm_body_b = k[26]
      ∧ (configuration.ofArray k h).length_cm_body_c = k[27]
      ∧ (configuration.ofArray k h).g_constant = k[28]
      ∧ (configuration.ofArray k h).angle_1 = k[29]
      ∧ (configuration.ofArray k h).angle_2 = k[30]
      ∧ (configuration.ofArray k h).angle_3 = k[31]
      ∧ (configuration.ofArray k h).offset_angle = k[32])
    ∧ (configuration.ofArray k h).byIndex = k.toList.take 33 := by
  refine ⟨by simp [configuration.ofArray], ?_⟩
  apply List.ext_getElem
  · simp [configuration.byIndex]; omega
  · intro n h1 h2
    have h3 : n < 33 := by simpa [configuration.byIndex] using h1
    interval_cases n <;> simp [configuration.byIndex, configuration.ofArray]

/-- Witness of C1 at the sample parameter array. -/
theorem configuration_ofArray_mapping_witness :
    33 ≤ sampleParams.size
      ∧ (configuration.ofArray sampleParams (by decide)).byIndex = sampleParams.toList.take 33 :=
  ⟨by decide, (configuration_ofArray_mapping sampleParams (by decide)).2⟩

/-- C2, as stated, fails: a parameter array whose capstan diameter `k[1]` and encoder
resolution `k[18]` are zero is physically invalid, and constructing a configuration from
it reports no error. -/
theorem construct_zero_capstan_no_error :
    physicallyInvalid zeroCapstanParams (by decide)
      ∧ ¬ ∃ e, configuration.construct zeroCapstanParams (by decide) = Construction.error e := by
  refine ⟨Or.inl (by decide), ?_⟩
  rintro ⟨e, he⟩
  simp [configuration.construct] at he

/-- C2, amended: `configuration(k)` validates nothing.  For every array `k` of at least
33 doubles, also one with a non-positive capstan diameter or a zero encoder resolution,
construction yields a configuration value and reports no error, and the capstan
diameters and encoder resolutions of that value are `k[1]`, `k[2]`, `k[3]`, `k[18]`,
`k[19]`, `k[20]` unchanged. -/
theorem construct_always_yields_value {D : Type} (k : Array D) (h : 33 ≤ k.size) :
    ∃ c : configuration D,
      configuration.construct k h = Construction.value c
        ∧ (∀ e, configuration.construct k h ≠ Construction.error e)
        ∧ c.diameter_capstan_a = k[1] ∧ c.diameter_capstan_b = k[2]
        ∧ c.diameter_capstan_c = k[3]
        ∧ c.cpr_encoder_a = k[18] ∧ c.cpr_encoder_b = k[19] ∧ c.cpr_encoder_c = k[20] := by
  refine ⟨configuration.ofArray k h, rfl, ?_, rfl, rfl, rfl, rfl, rfl, rfl⟩
  intro e he
  simp [configuration.construct] at he

/-- Witness of the amended C2 at the array with a zero capstan diameter. -/
theorem construct_always_yields_value_witness :
    33 ≤ zeroCapstanParams.size
      ∧ ∃ c : configuration Int,
          configuration.construct zeroCapstanParams (by decide) = Construction.value c
            ∧ c.diameter_capstan_a = 0 ∧ c.cpr_encoder_a = 0 := by
  refine ⟨by decide, ?_⟩
  obtain ⟨c, hc, _, h1, _, _, h18, _, _⟩ :=
    construct_always_yields_value zeroCapstanParams (by decide)
  exact ⟨c, hc, by rw [h1]; decide, by rw [h18]; decide⟩

/-! ## `getStatus`, `getEncoders`, `getTorqueSignals` -/

/-- C3 (the code departs from the claim): for every device state `getStatus()` hands no
value to its caller, because the body has no `return` statement, although the local
snapshot it builds does hold the six current values of the device. -/
theorem getStatus_returns_no_value {F D : Type} (dev : cAluminumDevice F D) :
    getStatus dev = none
      ∧ (getStatus_local dev).latest_hid_to_pc = dev.hid_to_pc
      ∧ (getStatus_local dev).latest_pc_to_hid = dev.pc_to_hid
      ∧ (getStatus_local dev).config = dev.m_config
      ∧ (getStatus_local dev).latest_position = dev.latest_position
      ∧ (getStatus_local dev).latest_force = dev.latest_force
      ∧ (getStatus_local dev).latest_motor_torques = dev.latest_motor_torques :=
  ⟨rfl, rfl, rfl, rfl, rfl, rfl, rfl⟩

/-- C10: for every device state `getEncoders()` returns the vector of the three
temperature fields of `incoming_msg` (each widened from `float` to `double`); replacing
the position fields, the current fields and the `hid_to_pc` encoder fields by any other
values leaves its result the same; and `getEncoders()` and `getTorqueSignals()` leave
the device state unchanged. -/
theorem getEncoders_reads_temperatures {F D : Type} (widen : F → D)
    (dev : cAluminumDevice F D) (px py pz c0 c1 c2 : F) (ea eb ec : D) :
    (getEncoders widen dev).1
        = cVector3d.mk (widen dev.incoming_msg.temperature_0)
            (widen dev.incoming_msg.temperature_1) (widen dev.incoming_msg.temperature_2)
      ∧ (getEncoders widen
            { dev with
              incoming_msg :=
                { dev.incoming_msg with
                  position_x := px, position_y := py, position_z := pz,
                  actual_current_0 := c0, actual_current_1 := c1, actual_current_2 := c2 },
              hid_to_pc :=
                { dev.hid_to_pc with encoder_a := ea, encoder_b := eb, encoder_c := ec } }).1
          = (getEncoders widen dev).1
      ∧ (getEncoders widen dev).2 = dev
      ∧ (getTorqueSignals dev).2 = dev
      ∧ (getTorqueSignals dev).1 = dev.torqueSignals :=
  ⟨rfl, rfl, rfl, rfl, rfl⟩

/-! ## Size of the HID report records -/

/-- C7 (the code departs from the claim): as declared, `hid_to_pc_message` and
`pc_to_hid_message` are each four `double` members, 32 bytes, and one record plus the
report identifier byte does not fit in the 9-byte `buf`; only the commented-out `short`
declarations give the 8 bytes of the comment, which with the identifier fill `buf`
exactly. -/
theorem hid_records_exceed_buf :
    recordBytes hid_to_pc_message.memberTypes = 32
      ∧ recordBytes pc_to_hid_message.memberTypes = 32
      ∧ ¬ (recordBytes hid_to_pc_message.memberTypes + 1 ≤ bufLength)
      ∧ ¬ (recordBytes pc_to_hid_message.memberTypes + 1 ≤ bufLength)
      ∧ recordBytes commentedOutMemberTypes = 8
      ∧ recordBytes commentedOutMemberTypes + 1 = bufLength := by
  decide

/-! ## Gravity compensation and the safety limiter -/

/-- C5: for every set of joint angles and every configuration with `g_constant` equal to
exactly zero, the gravity-compensation torque is zero for each of the three joints,
whatever the torque computation used for a non-zero constant. -/
theorem gravityCompensation_zero_g {D : Type} [Zero D] [DecidableEq D]
    (gravityTorque : configuration D → cVector3d D → cVector3d D)
    (c : configuration D) (jointAngles : cVector3d D) (hg : c.g_constant = 0) :
    (gravityCompensation gravityTorque c jointAngles).x = 0
      ∧ (gravityCompensation gravityTorque c jointAngles).y = 0
      ∧ (gravityCompensation gravityTorque c jointAngles).z = 0 := by
  simp [gravityCompensation, hg]

/-- Witness of C5: a configuration with `g_constant = 0` and a torque computation that
is nowhere zero. -/
theorem gravityCompensation_zero_g_witness :
    (configuration.ofArray noGravityParams (by decide)).g_constant = 0
      ∧ (gravityCompensation (fun _ _ => cVector3d.mk (1 : Int) 1 1)
          (configuration.ofArray noGravityParams (by decide)) (cVector3d.mk 7 8 9)).x = 0 :=
  ⟨by decide,
   (gravityCompensation_zero_g (fun _ _ => cVector3d.mk (1 : Int) 1 1)
      (configuration.ofArray noGravityParams (by decide)) (cVector3d.mk 7 8 9)
      (by decide)).1⟩

/-- The padding loop in closed form: it appends `32 - length` spaces (none when the text
is already 32 characters or longer). -/
theorem padLoop_eq (s : String) :
    padLoop s = s ++ String.mk (List.replicate (32 - s.length) ' ') := by
  induction s using padLoop.induct with
  | case1 s h ih =>
    rw [padLoop, if_pos h, ih]
    apply String.ext
    have h1 : 32 - s.length = (32 - (s ++ " ").length) + 1 := by
      have h2 : (" " : String).length = 1 := rfl
      rw [String.length_append, h2]; omega
    rw [h1, List.replicate_succ]
    simp [String.data_append]
  | case2 s h =>
    rw [padLoop, if_neg h]
    have h1 : 32 - s.length = 0 := by omega
    rw [h1]
    apply String.ext
    simp [String.data_append]

/-- The text of `j(key, value)` in closed form: the quoted key after four spaces, a colon,
`25 - length(key)` spaces, the value, a comma and a newline. -/
theorem j_eq {D : Type} (fmt : D → String) (key : String) (value : D) :
    j fmt key value
      = "    \"" ++ key ++ "\":" ++ String.mk (List.replicate (25 - key.length) ' ')
          ++ fmt value ++ "," ++ endl := by
  have h1 : ("    \"" ++ key ++ "\":").length = key.length + 7 := by
    have h2 : ("    \"" : String).length = 5 := rfl
    have h3 : ("\":" : String).length = 2 := rfl
    rw [String.length_append, String.length_append, h2, h3]; omega
  have h4 : 32 - (key.length + 7) = 25 - key.length := by omega
  rw [j, padLoop_eq, h1, h4]

/-- Containment of texts is the infix relation on their characters. -/
theorem contains_iff_data (t piece : String) :
    Contains t piece ↔ piece.data <:+: t.data := by
  constructor
  · rintro ⟨pre, post, rfl⟩
    exact ⟨pre.data, post.data, by simp [String.data_append]⟩
  · rintro ⟨a, b, hab⟩
    exact ⟨String.mk a, String.mk b, String.ext (by simp [String.data_append, hab])⟩

/-- Every member of a list of texts is contained in their concatenation. -/
theorem contains_catLines (pre post : String) (ls : List String) (x : String)
    (hx : x ∈ ls) : Contains (pre ++ catLines ls ++ post) x := by
  induction ls generalizing pre with
  | nil => simp at hx
  | cons y ys ih =>
    rcases List.mem_cons.mp hx with rfl | hmem
    · exact ⟨pre, catLines ys ++ post, by simp [catLines, String.append_assoc]⟩
    · obtain ⟨a, b, hab⟩ := ih (pre ++ y) hmem
      exact ⟨a, b, by rw [← hab]; simp [catLines, String.append_assoc]⟩

/-- The text of `config_toJSON(c)`: the opening line, the 28 lines of `j`, the closing
line. -/
theorem config_toJSON_eq {D : Type} (fmt : D → String) (c : configuration D) :
    config_toJSON fmt c
      = ("\x7b" ++ endl)
          ++ catLines ((exportedFields c).map (fun p => j fmt p.1 p.2))
          ++ ("\x7d" ++ endl) := by
  simp [config_toJSON, exportedFields, catLines, String.append_assoc]

/-- C4, as stated, fails: `variant` is a member of the configuration, and the text
exported for the sample configuration has no `variant` line; indeed none of the names
`variant`, `offset_angle`, `angle_1`, `angle_2`, `angle_3` occurs anywhere in it. -/
theorem config_toJSON_no_variant_line :
    ("variant", (configuration.ofArray sampleParams (by decide)).variant)
        ∈ (configuration.ofArray sampleParams (by decide)).namedFields
      ∧ ¬ Contains (config_toJSON fmtInt (configuration.ofArray sampleParams (by decide)))
            (j fmtInt "variant" (configuration.ofArray sampleParams (by decide)).variant)
      ∧ ¬ Contains (config_toJSON fmtInt (configuration.ofArray sampleParams (by decide)))
            "variant"
      ∧ ¬ Contains (config_toJSON fmtInt (configuration.ofArray sampleParams (by decide)))
            "offset_angle"
      ∧ ¬ Contains (config_toJSON fmtInt (configuration.ofArray sampleParams (by decide)))
            "angle_1"
      ∧ ¬ Contains (config_toJSON fmtInt (configuration.ofArray sampleParams (by decide)))
            "angle_2"
      ∧ ¬ Contains (config_toJSON fmtInt (configuration.ofArray sampleParams (by decide)))
            "angle_3" := by
  refine ⟨by simp [configuration.namedFields], ?_⟩
  simp only [contains_iff_data]
  simp only [config_toJSON, j_eq]
  decide!

/-- C4, amended: for every configuration `c`, the text `config_toJSON(c)` contains one
key/value line for every member of the configuration structure other than `variant`,
`offset_angle`, `angle_1`, `angle_2` and `angle_3` (28 of the 33 members set by the
constructor), each line carrying that member's name as key and that member's value. -/
theorem config_toJSON_exported_lines {D : Type} (fmt : D → String) (c : configuration D)
    (p : String × D) (hp : p ∈ c.namedFields) (hne : p.1 ∉ notExported) :
    Contains (config_toJSON fmt c) (j fmt p.1 p.2) := by
  have hmem : p ∈ exportedFields c := by
    simp only [configuration.namedFields, List.mem_cons, List.mem_singleton,
      List.not_mem_nil, or_false] at hp
    rcases hp with h | h | h | h | h | h | h | h | h | h | h | h | h | h | h | h | h
      | h | h | h | h | h | h | h | h | h | h | h | h | h | h | h | h
    all_goals subst h
    all_goals first
      | (simp [exportedFields]; done)
      | exact absurd (by simp [notExported]) hne
  rw [config_toJSON_eq]
  exact contains_catLines _ _ _ _ (List.mem_map.mpr ⟨p, hmem, rfl⟩)

/-- Witness of the amended C4: the `g_constant` line of the sample configuration. -/
theorem config_toJSON_exported_lines_witness :
    ("g_constant", (29 : Int)) ∈ (configuration.ofArray sampleParams (by decide)).namedFields
      ∧ "g_constant" ∉ notExported
      ∧ Contains (config_toJSON fmtInt (configuration.ofArray sampleParams (by decide)))
          (j fmtInt "g_constant" 29) :=
  ⟨by decide, by decide,
   config_toJSON_exported_lines fmtInt (configuration.ofArray sampleParams (by decide))
     ("g_constant", 29) (by decide) (by decide)⟩

/-- Containment of texts is transitive. -/
theorem contains_trans {t u v : String} (h1 : Contains t u) (h2 : Contains u v) :
    Contains t v := by
  obtain ⟨a, b, rfl⟩ := h1
  obtain ⟨c, d, rfl⟩ := h2
  exact ⟨a ++ c, d ++ b, by simp [String.append_assoc]⟩

/-- The text of `toJSON()` entry by entry. -/
theorem toJSON_eq {D : Type} (fmt : D → String) (s : aluminumhaptics_status D) :
    toJSON fmt s
      = "\x7b" ++ endl
          ++ topLevelEntry "latest_position" (toJSON_vec fmt s.latest_position)
          ++ topLevelEntry "latest_force" (toJSON_vec fmt s.latest_force)
          ++ topLevelEntry "latest_motor_torques" (toJSON_vec fmt s.latest_motor_torques)
          ++ topLevelEntry "latest_hid_to_pc_encoder_a" (fmt s.latest_hid_to_pc.encoder_a)
          ++ topLevelEntry "latest_hid_to_pc_encoder_b" (fmt s.latest_hid_to_pc.encoder_b)
          ++ topLevelEntry "latest_hid_to_pc_encoder_c" (fmt s.latest_hid_to_pc.encoder_c)
          ++ topLevelEntry "latest_pc_to_hid_motor_a_mA"
              (fmt s.latest_pc_to_hid.current_motor_a_mA)
          ++ topLevelEntry "latest_pc_to_hid_motor_b_mA"
              (fmt s.latest_pc_to_hid.current_motor_b_mA)
          ++ topLevelEntry "latest_pc_to_hid_motor_c_mA"
              (fmt s.latest_pc_to_hid.current_motor_c_mA)
          ++ "  'configuration: " ++ endl
          ++ config_toJSON fmt s.config
          ++ "\x7d" ++ endl := by
  have k1 : "  '" ++ "latest_position" ++ "':  " = "  'latest_position':  " := by decide
  have k2 : "  '" ++ "latest_force" ++ "':  " = "  'latest_force':  " := by decide
  have k3 : "  '" ++ "latest_motor_torques" ++ "':  " = "  'latest_motor_torques':  " := by
    decide
  have k4 : "  '" ++ "latest_hid_to_pc_encoder_a" ++ "':  "
      = "  'latest_hid_to_pc_encoder_a':  " := by decide
  have k5 : "  '" ++ "latest_hid_to_pc_encoder_b" ++ "':  "
      = "  'latest_hid_to_pc_encoder_b':  " := by decide
  have k6 : "  '" ++ "latest_hid_to_pc_encoder_c" ++ "':  "
      = "  'latest_hid_to_pc_encoder_c':  " := by decide
  have k7 : "  '" ++ "latest_pc_to_hid_motor_a_mA" ++ "':  "
      = "  'latest_pc_to_hid_motor_a_mA':  " := by decide
  have k8 : "  '" ++ "latest_pc_to_hid_motor_b_mA" ++ "':  "
      = "  'latest_pc_to_hid_motor_b_mA':  " := by decide
  have k9 : "  '" ++ "latest_pc_to_hid_motor_c_mA" ++ "':  "
      = "  'latest_pc_to_hid_motor_c_mA':  " := by decide
  simp only [toJSON, topLevelEntry, k1, k2, k3, k4, k5, k6, k7, k8, k9]
  simp only [String.append_assoc, String.append_empty]

/-- The text of `toJSON()` as a concatenation of its eleven parts between the outer
braces. -/
theorem toJSON_lines {D : Type} (fmt : D → String) (s : aluminumhaptics_status D) :
    toJSON fmt s
      = ("\x7b" ++ endl)
          ++ catLines
            [topLevelEntry "latest_position" (toJSON_vec fmt s.latest_position),
             topLevelEntry "latest_force" (toJSON_vec fmt s.latest_force),
             topLevelEntry "latest_motor_torques" (toJSON_vec fmt s.latest_motor_torques),
             topLevelEntry "latest_hid_to_pc_encoder_a" (fmt s.latest_hid_to_pc.encoder_a),
             topLevelEntry "latest_hid_to_pc_encoder_b" (fmt s.latest_hid_to_pc.encoder_b),
             topLevelEntry "latest_hid_to_pc_encoder_c" (fmt s.latest_hid_to_pc.encoder_c),
             topLevelEntry "latest_pc_to_hid_motor_a_mA"
               (fmt s.latest_pc_to_hid.current_motor_a_mA),
             topLevelEntry "latest_pc_to_hid_motor_b_mA"
               (fmt s.latest_pc_to_hid.current_motor_b_mA),
             topLevelEntry "latest_pc_to_hid_motor_c_mA"
               (fmt s.latest_pc_to_hid.current_motor_c_mA),
             "  'configuration: " ++ endl,
             config_toJSON fmt s.config]
          ++ ("\x7d" ++ endl) := by
  rw [toJSON_eq]
  simp only [catLines, String.append_assoc, String.append_empty]

/-- A top-level entry holds its key between single quotes, then a colon, two spaces, the
value and a comma. -/
theorem topLevelEntry_contains_quoted_key (key value : String) :
    Contains (topLevelEntry key value) ("'" ++ key ++ "'" ++ ":  " ++ value ++ ",") := by
  refine ⟨"  ", endl, ?_⟩
  have h1 : "  '" = "  " ++ "'" := by decide
  have h2 : "':  " = "'" ++ ":  " := by decide
  rw [topLevelEntry, h1, h2]
  simp only [String.append_assoc]

/-- A line of `j` holds its key between double quotes, followed by a colon. -/
theorem j_contains_double_quoted_key {D : Type} (fmt : D → String) (key : String)
    (value : D) : Contains (j fmt key value) ("\"" ++ key ++ "\"" ++ ":") := by
  refine ⟨"    ",
    String.mk (List.replicate (25 - key.length) ' ') ++ fmt value ++ "," ++ endl, ?_⟩
  have h1 : "    \"" = "    " ++ "\"" := by decide
  have h2 : "\":" = "\"" ++ ":" := by decide
  rw [j_eq, h1, h2]
  simp only [String.append_assoc]

/-- C8, as stated, fails: in the text exported for the sample status none of the three
vector renderings stands between two single-quote characters. -/
theorem toJSON_vectors_not_single_quoted :
    ¬ Contains (toJSON fmtInt sampleStatus)
          ("'" ++ toJSON_vec fmtInt sampleStatus.latest_position ++ "'")
      ∧ ¬ Contains (toJSON fmtInt sampleStatus)
          ("'" ++ toJSON_vec fmtInt sampleStatus.latest_force ++ "'")
      ∧ ¬ Contains (toJSON fmtInt sampleStatus)
          ("'" ++ toJSON_vec fmtInt sampleStatus.latest_motor_torques ++ "'") := by
  simp only [contains_iff_data]
  simp only [toJSON, config_toJSON, j_eq, toJSON_vec]
  decide!

/-- C8, amended: in the text produced by `toJSON()`, for every status value, it is the
key of each of the three Cartesian vectors (`latest_position`, `latest_force`,
`latest_motor_torques`) that is wrapped in single quotes: the key is immediately preceded
and followed by a single-quote character, and the rendering of the vector follows the
closing quote after a colon and two spaces and is immediately followed by a comma.  The
keys of the configuration lines of the same text are in double quotes. -/
theorem toJSON_vector_keys_single_quoted {D : Type} (fmt : D → String)
    (s : aluminumhaptics_status D) :
    Contains (toJSON fmt s)
        ("'" ++ "latest_position" ++ "'" ++ ":  " ++ toJSON_vec fmt s.latest_position ++ ",")
      ∧ Contains (toJSON fmt s)
        ("'" ++ "latest_force" ++ "'" ++ ":  " ++ toJSON_vec fmt s.latest_force ++ ",")
      ∧ Contains (toJSON fmt s)
        ("'" ++ "latest_motor_torques" ++ "'" ++ ":  "
          ++ toJSON_vec fmt s.latest_motor_torques ++ ",")
      ∧ ∀ p ∈ exportedFields s.config, Contains (toJSON fmt s) ("\"" ++ p.1 ++ "\"" ++ ":") := by
  refine ⟨?_, ?_, ?_, ?_⟩
  · refine contains_trans ?_ (topLevelEntry_contains_quoted_key _ _)
    rw [toJSON_lines]
    exact contains_catLines _ _ _ _ (by simp)
  · refine contains_trans ?_ (topLevelEntry_contains_quoted_key _ _)
    rw [toJSON_lines]
    exact contains_catLines _ _ _ _ (by simp)
  · refine contains_trans ?_ (topLevelEntry_contains_quoted_key _ _)
    rw [toJSON_lines]
    exact contains_catLines _ _ _ _ (by simp)
  · intro p hp
    have h1 : Contains (toJSON fmt s) (config_toJSON fmt s.config) := by
      rw [toJSON_lines]
      exact contains_catLines _ _ _ _ (by simp)
    have h2 : Contains (config_toJSON fmt s.config) (j fmt p.1 p.2) := by
      rw [config_toJSON_eq]
      exact contains_catLines _ _ _ _ (List.mem_map.mpr ⟨p, hp, rfl⟩)
    exact contains_trans (contains_trans h1 h2) (j_contains_double_quoted_key fmt p.1 p.2)

/-! ## Brace structure of the exported text -/

/-- Scanning over characters that are not braces leaves the scan state as it is. -/
theorem braceScan_free (l rest : List Char) (st : Nat × Nat)
    (hl : ∀ ch ∈ l, ch ≠ '\x7b' ∧ ch ≠ '\x7d') :
    braceScan (l ++ rest) st = braceScan rest st := by
  induction l with
  | nil => rfl
  | cons ch cs ih =>
    have h1 := hl ch (List.mem_cons_self _ _)
    have h2 : ∀ x ∈ cs, x ≠ '\x7b' ∧ x ≠ '\x7d' := fun x hx => hl x (List.mem_cons_of_mem _ hx)
    simp [braceScan, h1.1, h1.2, ih h2]

theorem BraceFree.append {a b : String} (ha : BraceFree a) (hb : BraceFree b) :
    BraceFree (a ++ b) := by
  intro ch hch
  rw [String.data_append, List.mem_append] at hch
  exact hch.elim (ha ch) (hb ch)

theorem braceFree_spaces (n : Nat) : BraceFree (String.mk (List.replicate n ' ')) := by
  intro ch hch
  have h1 : ch = ' ' := (List.mem_replicate.mp hch).2
  subst h1
  decide

theorem braceFree_catLines (ls : List String) (h : ∀ x ∈ ls, BraceFree x) :
    BraceFree (catLines ls) := by
  induction ls with
  | nil => intro ch hch; simp [catLines] at hch
  | cons y ys ih =>
    exact BraceFree.append (h y (List.mem_cons_self _ _))
      (ih (fun x hx => h x (List.mem_cons_of_mem _ hx)))

theorem braceFree_endl : BraceFree endl := by decide

theorem braceFree_toJSON_vec {D : Type} (fmt : D → String) (hfmt : ∀ d, BraceFree (fmt d))
    (v : cVector3d D) : BraceFree (toJSON_vec fmt v) := by
  unfold toJSON_vec
  have h1 : BraceFree "[" := by decide
  have h2 : BraceFree ", " := by decide
  have h3 : BraceFree "]" := by decide
  exact ((((((h1.append (hfmt _)).append h2).append (hfmt _)).append h2).append
    (hfmt _)).append h3).append braceFree_endl

theorem braceFree_topLevelEntry (key value : String) (hk : BraceFree key)
    (hv : BraceFree value) : BraceFree (topLevelEntry key value) := by
  unfold topLevelEntry
  have h1 : BraceFree "  '" := by decide
  have h2 : BraceFree "':  " := by decide
  have h3 : BraceFree "," := by decide
  exact ((((h1.append hk).append h2).append hv).append h3).append braceFree_endl

theorem braceFree_j {D : Type} (fmt : D → String) (hfmt : ∀ d, BraceFree (fmt d))
    (key : String) (value : D) (hk : BraceFree key) : BraceFree (j fmt key value) := by
  rw [j_eq]
  have h1 : BraceFree "    \"" := by decide
  have h2 : BraceFree "\":" := by decide
  have h3 : BraceFree "," := by decide
  exact (((((h1.append hk).append h2).append (braceFree_spaces _)).append (hfmt _)).append
    h3).append braceFree_endl

theorem braceFree_exported_keys {D : Type} (c : configuration D) :
    ∀ p ∈ exportedFields c, BraceFree p.1 := by
  intro p hp
  simp only [exportedFields, List.mem_cons, List.mem_singleton, List.not_mem_nil,
    or_false] at hp
  rcases hp with h | h | h | h | h | h | h | h | h | h | h | h | h | h | h | h | h
    | h | h | h | h | h | h | h | h | h | h | h
  all_goals subst h
  all_goals (dsimp only; decide)

/-- A brace-free text around one braced brace-free block, all inside one pair of braces,
scans as balanced with deepest level two. -/
theorem braceScan_two_levels (outer inner : String) (ho : BraceFree outer)
    (hi : BraceFree inner) :
    braceScan
        ("\x7b" ++ outer ++ ("\x7b" ++ inner ++ "\x7d" ++ endl) ++ "\x7d" ++ endl).data (0, 0)
      = some (0, 2) := by
  have hopen : ("\x7b" : String).data = ['\x7b'] := rfl
  have hclose : ("\x7d" : String).data = ['\x7d'] := rfl
  have hcl : ('\x7d' : Char) ≠ '\x7b' := by decide
  simp only [String.data_append, List.append_assoc, hopen, hclose, List.singleton_append,
    List.cons_append, List.nil_append]
  rw [braceScan, if_pos rfl, braceScan_free _ _ _ ho, braceScan, if_pos rfl,
    braceScan_free _ _ _ hi, braceScan, if_neg hcl, if_pos rfl]
  simp only [Nat.zero_add, Nat.reduceAdd, Nat.add_one_sub_one, Nat.zero_max, Nat.max_def]
  rw [braceScan_free _ _ _ braceFree_endl, braceScan, if_neg hcl, if_pos rfl]
  simp [braceScan_free _ [] _ braceFree_endl, braceScan]

theorem digitChar_not_brace (d : Nat) :
    Nat.digitChar d ≠ '\x7b' ∧ Nat.digitChar d ≠ '\x7d' := by
  by_cases h : d < 16
  · interval_cases d <;> decide
  · have h1 : Nat.digitChar d = '*' := by
      unfold Nat.digitChar
      repeat rw [if_neg (by omega)]
    rw [h1]
    decide

theorem toDigitsCore_not_brace (fuel n : Nat) (acc : List Char)
    (hacc : ∀ ch ∈ acc, ch ≠ '\x7b' ∧ ch ≠ '\x7d') :
    ∀ ch ∈ Nat.toDigitsCore 10 fuel n acc, ch ≠ '\x7b' ∧ ch ≠ '\x7d' := by
  induction fuel generalizing n acc with
  | zero => simpa [Nat.toDigitsCore] using hacc
  | succ f ih =>
    have hcons : ∀ ch ∈ Nat.digitChar (n % 10) :: acc, ch ≠ '\x7b' ∧ ch ≠ '\x7d' := by
      intro ch hch
      rcases List.mem_cons.mp hch with rfl | hmem
      · exact digitChar_not_brace _
      · exact hacc ch hmem
    unfold Nat.toDigitsCore
    dsimp only
    split_ifs
    · exact hcons
    · exact ih _ _ hcons

theorem braceFree_natRepr (n : Nat) : BraceFree (Nat.repr n) := by
  intro ch hch
  exact toDigitsCore_not_brace (n + 1) n [] (by simp) ch
    (by simpa [Nat.repr, Nat.toDigits, List.asString] using hch)

/-- The decimal output of an integer has no brace. -/
theorem braceFree_fmtInt (z : Int) : BraceFree (fmtInt z) := by
  cases z with
  | ofNat m => exact braceFree_natRepr m
  | negSucc m =>
    have h1 : BraceFree "-" := by decide
    exact h1.append (braceFree_natRepr (m + 1))

/-- C9: for every status value `s`, `s.toJSON()` starts with an opening brace and a
newline, then carries exactly nine top-level entries in the order `latest_position`,
`latest_force`, `latest_motor_torques`, the three `hid_to_pc` encoders, the three
`pc_to_hid` motor currents, then the configuration key, then the complete text of
`config_toJSON(s.config)` as one contiguous block, and ends with a closing brace and a
newline; the inner block starts with an opening brace and its last line is a closing
brace, with no brace in between; so the braces of the whole text are balanced and nested
to depth two.  (`operator<<` never prints a brace for a number: `hfmt`.) -/
theorem toJSON_nested_document {D : Type} (fmt : D → String)
    (s : aluminumhaptics_status D) (hfmt : ∀ d, BraceFree (fmt d)) :
    toJSON fmt s
        = "\x7b" ++ endl
          ++ topLevelEntry "latest_position" (toJSON_vec fmt s.latest_position)
          ++ topLevelEntry "latest_force" (toJSON_vec fmt s.latest_force)
          ++ topLevelEntry "latest_motor_torques" (toJSON_vec fmt s.latest_motor_torques)
          ++ topLevelEntry "latest_hid_to_pc_encoder_a" (fmt s.latest_hid_to_pc.encoder_a)
          ++ topLevelEntry "latest_hid_to_pc_encoder_b" (fmt s.latest_hid_to_pc.encoder_b)
          ++ topLevelEntry "latest_hid_to_pc_encoder_c" (fmt s.latest_hid_to_pc.encoder_c)
          ++ topLevelEntry "latest_pc_to_hid_motor_a_mA"
              (fmt s.latest_pc_to_hid.current_motor_a_mA)
          ++ topLevelEntry "latest_pc_to_hid_motor_b_mA"
              (fmt s.latest_pc_to_hid.current_motor_b_mA)
          ++ topLevelEntry "latest_pc_to_hid_motor_c_mA"
              (fmt s.latest_pc_to_hid.current_motor_c_mA)
          ++ "  'configuration: " ++ endl
          ++ config_toJSON fmt s.config
          ++ "\x7d" ++ endl
      ∧ (∃ inner : String, BraceFree inner
          ∧ config_toJSON fmt s.config = "\x7b" ++ inner ++ "\x7d" ++ endl)
      ∧ braceScan (toJSON fmt s).data (0, 0) = some (0, 2) := by
  have hinner : BraceFree
      (endl ++ catLines ((exportedFields s.config).map (fun p => j fmt p.1 p.2))) := by
    refine braceFree_endl.append (braceFree_catLines _ ?_)
    intro x hx
    obtain ⟨p, hp, rfl⟩ := List.mem_map.mp hx
    exact braceFree_j fmt hfmt p.1 p.2 (braceFree_exported_keys s.config p hp)
  have hcfg : config_toJSON fmt s.config
      = "\x7b"
          ++ (endl ++ catLines ((exportedFields s.config).map (fun p => j fmt p.1 p.2)))
          ++ "\x7d" ++ endl := by
    rw [config_toJSON_eq]
    simp only [String.append_assoc]
  refine ⟨toJSON_eq fmt s, ⟨_, hinner, hcfg⟩, ?_⟩
  have hkey : BraceFree ("  'configuration: " ++ endl) :=
    BraceFree.append (by decide) braceFree_endl
  have hv := braceFree_toJSON_vec fmt hfmt
  have houter : BraceFree
      (endl
        ++ topLevelEntry "latest_position" (toJSON_vec fmt s.latest_position)
        ++ topLevelEntry "latest_force" (toJSON_vec fmt s.latest_force)
        ++ topLevelEntry "latest_motor_torques" (toJSON_vec fmt s.latest_motor_torques)
        ++ topLevelEntry "latest_hid_to_pc_encoder_a" (fmt s.latest_hid_to_pc.encoder_a)
        ++ topLevelEntry "latest_hid_to_pc_encoder_b" (fmt s.latest_hid_to_pc.encoder_b)
        ++ topLevelEntry "latest_hid_to_pc_encoder_c" (fmt s.latest_hid_to_pc.encoder_c)
        ++ topLevelEntry "latest_pc_to_hid_motor_a_mA"
            (fmt s.latest_pc_to_hid.current_motor_a_mA)
        ++ topLevelEntry "latest_pc_to_hid_motor_b_mA"
            (fmt s.latest_pc_to_hid.current_motor_b_mA)
        ++ topLevelEntry "latest_pc_to_hid_motor_c_mA"
            (fmt s.latest_pc_to_hid.current_motor_c_mA)
        ++ ("  'configuration: " ++ endl)) :=
    ((((((((((braceFree_endl.append
      (braceFree_topLevelEntry _ _ (by decide) (hv _))).append
      (braceFree_topLevelEntry _ _ (by decide) (hv _))).append
      (braceFree_topLevelEntry _ _ (by decide) (hv _))).append
      (braceFree_topLevelEntry _ _ (by decide) (hfmt _))).append
      (braceFree_topLevelEntry _ _ (by decide) (hfmt _))).append
      (braceFree_topLevelEntry _ _ (by decide) (hfmt _))).append
      (braceFree_topLevelEntry _ _ (by decide) (hfmt _))).append
      (braceFree_topLevelEntry _ _ (by decide) (hfmt _))).append
      (braceFree_topLevelEntry _ _ (by decide) (hfmt _))).append hkey)
  have hscan := braceScan_two_levels _ _ houter hinner
  rw [toJSON_eq, hcfg]
  simpa only [String.append_assoc] using hscan

/-- Witness of C9: the sample status printed with decimal integers, whose text has
balanced braces nested to depth two. -/
theorem toJSON_nested_document_witness :
    (∀ d, BraceFree (fmtInt d))
      ∧ braceScan (toJSON fmtInt sampleStatus).data (0, 0) = some (0, 2) :=
  ⟨braceFree_fmtInt, (toJSON_nested_document fmtInt sampleStatus braceFree_fmtInt).2.2⟩

/-! ## The padding loop of `j` -/

/-- The counted loop leaves the same text as the loop, after `32 - length` runs of its
body. -/
theorem padLoopCount_eq (s : String) :
    padLoopCount s = (32 - s.length, padLoop s) := by
  induction s using padLoop.induct with
  | case1 s h ih =>
    have h2 : (" " : String).length = 1 := rfl
    have h3 : padLoop s = padLoop (s ++ " ") := by
      conv_lhs => rw [padLoop, if_pos h]
    rw [padLoopCount, if_pos h, ih, h3, String.length_append, h2]
    simp only [Prod.mk.injEq, and_true]
    omega
  | case2 s h =>
    rw [padLoopCount, if_neg h, padLoop, if_neg h]
    simp only [Prod.mk.injEq, and_true]
    omega

/-- Two lines of `j` written out: a key of 10 characters, whose value starts at column
32, and a key of 28 characters, kept whole and followed by its value at once. -/
theorem j_sample_lines :
    j fmtInt "g_constant" 29 = "    \"g_constant\":               29,\n"
      ∧ j fmtInt "a_key_of_twenty_eight_chars_" 29
          = "    \"a_key_of_twenty_eight_chars_\":29,\n" := by
  simp only [j_eq]
  decide!

/-- C11: for every key and value the padding loop of `j(key, value)` terminates (after
`25 - length(key)` runs of its body, none for a key longer than 25 characters) and the
result is four spaces, a double quote, the key, a double quote, a colon, then the spaces
that pad this prefix to length `max(32, length(key) + 7)`, then the formatted value, a
comma and a newline.  So for a key of at most 25 characters the value starts at column
32 exactly, and a longer key is kept whole and gets no padding. -/
theorem j_padding {D : Type} (fmt : D → String) (key : String) (value : D) :
    j fmt key value
        = "    " ++ "\"" ++ key ++ "\"" ++ ":"
            ++ String.mk (List.replicate (max 32 (key.length + 7) - (key.length + 7)) ' ')
            ++ fmt value ++ "," ++ endl
      ∧ ("    " ++ "\"" ++ key ++ "\"" ++ ":"
            ++ String.mk (List.replicate (max 32 (key.length + 7) - (key.length + 7)) ' ')).length
          = max 32 (key.length + 7)
      ∧ padLoopCount ("    \"" ++ key ++ "\":")
          = (25 - key.length, padLoop ("    \"" ++ key ++ "\":"))
      ∧ (key.length ≤ 25 →
          ∃ pre : String, pre.length = 32 ∧ j fmt key value = pre ++ fmt value ++ "," ++ endl)
      ∧ (25 < key.length →
          j fmt key value = "    " ++ "\"" ++ key ++ "\"" ++ ":" ++ fmt value ++ "," ++ endl) := by
  have hq : "    \"" = "    " ++ "\"" := by decide
  have hc : "\":" = "\"" ++ ":" := by decide
  have hlen : ("    " ++ "\"" ++ key ++ "\"" ++ ":").length = key.length + 7 := by
    have h4 : ("    " : String).length = 4 := rfl
    have h1 : ("\"" : String).length = 1 := rfl
    have h2 : (":" : String).length = 1 := rfl
    simp only [String.length_append, h4, h1, h2]
    omega
  have hsp : ∀ n : Nat, (String.mk (List.replicate n ' ')).length = n := fun n =>
    List.length_replicate n ' '
  have hpad : max 32 (key.length + 7) - (key.length + 7) = 25 - key.length := by omega
  have hj : j fmt key value
      = "    " ++ "\"" ++ key ++ "\"" ++ ":"
          ++ String.mk (List.replicate (25 - key.length) ' ') ++ fmt value ++ "," ++ endl := by
    rw [j_eq, hq, hc]
    simp only [String.append_assoc]
  refine ⟨by rw [hpad]; exact hj, ?_, ?_, ?_, ?_⟩
  · rw [String.length_append, hlen, hsp]
    omega
  · rw [padLoopCount_eq]
    have h5 : ("    \"" ++ key ++ "\":").length = key.length + 7 := by
      rw [hq, hc, ← String.append_assoc]
      exact hlen
    rw [h5]
    simp only [Prod.mk.injEq, and_true]
    omega
  · intro hk
    refine ⟨"    " ++ "\"" ++ key ++ "\"" ++ ":"
      ++ String.mk (List.replicate (25 - key.length) ' '), ?_, hj⟩
    rw [String.length_append, hlen, hsp]
    omega
  · intro hk
    have h0 : 25 - key.length = 0 := by omega
    rw [hj, h0]
    simp only [List.replicate_zero]
    have he : String.mk [] = "" := rfl
    rw [he, String.append_empty]

end chai3d
